import Mathlib

/-!
Verification development for the SightGuide live-session controller.

The definitions below are a shallow embedding of the TypeScript source:
the gesture recognizer (`handleInputEnd` and its disambiguation timers),
the mode cycling (`handleSwipe` / `handleModeChange`), the reconnection
backoff (`handleDisconnect`), the audio scheduling cursor and flush
(`onmessage` audio path, `stopAudioOutput`), the adaptive frame sampler
(`startFrameStreaming` tick body) and the pause/capture guards.
Times are modelled in milliseconds as naturals, audio-context times and
durations in seconds as rationals, pixel deltas as integers.
-/

namespace SightGuide

/-- Embeds `AppState` from types.ts. -/
inductive AppState where
  | idle | starting | running | paused | stopping | error
deriving DecidableEq, Repr

/-- Embeds `ConnectionStatus` from types.ts. -/
inductive ConnStatus where
  | disconnected | connecting | connected | reconnecting | error
deriving DecidableEq, Repr

/-- Embeds `AppMode` from types.ts. -/
inductive AppMode where
  | NAVIGATION | READING | OBJECT
deriving DecidableEq, Repr

/-- The active-state test `current === 'running' || current === 'starting' ||
current === 'paused'` used throughout the source. -/
def isActiveState (s : AppState) : Bool :=
  s = AppState.running || s = AppState.starting || s = AppState.paused

-- ------------------------------------------------------------------
-- Gesture recognizer (App.tsx handleInputEnd and the tap timers)
-- ------------------------------------------------------------------

/-- Discrete actions the gesture recognizer can emit. -/
inductive GAction where
  | singleTap | doubleTap | tripleTap | swipeLeft | swipeRight
deriving DecidableEq, Repr

/-- Mutable gesture state: `tapCountRef`, `singleTapTimeoutRef` and
`doubleTapTimeoutRef` (a pending timer is its absolute deadline in ms). -/
structure GestureState where
  tapCount : Nat
  singleTimer : Option Nat
  doubleTimer : Option Nat
deriving DecidableEq, Repr

def initGesture : GestureState := ⟨0, none, none⟩

/-- A pointer-down/pointer-up pair as seen by `handleInputEnd`: absolute
up-time `t` (ms), deltas `dx`,`dy` (px) and press `dur`ation (ms). -/
structure UpEvent where
  t : Nat
  dx : Int
  dy : Int
  dur : Nat
deriving DecidableEq, Repr

/-- Fire the single-tap timeout if its deadline has passed: the callback
runs `handleSingleTapAction()` and resets `tapCountRef` to 0. -/
def fireSingle (s : GestureState) (t : Nat) : GestureState × List GAction :=
  match s.singleTimer with
  | some d => if d ≤ t then (⟨0, none, s.doubleTimer⟩, [GAction.singleTap]) else (s, [])
  | none => (s, [])

/-- Fire the double-tap timeout if its deadline has passed. -/
def fireDouble (s : GestureState) (t : Nat) : GestureState × List GAction :=
  match s.doubleTimer with
  | some d => if d ≤ t then (⟨0, s.singleTimer, none⟩, [GAction.doubleTap]) else (s, [])
  | none => (s, [])

/-- Let any expired disambiguation timer fire before time `t`. -/
def fireTimers (s : GestureState) (t : Nat) : GestureState × List GAction :=
  let p := fireSingle s t
  let q := fireDouble p.1 t
  (q.1, p.2 ++ q.2)

/-- Embeds `handleInputEnd` (App.tsx lines 164-204): swipe detection first
(duration < 500 and `|Δx| > 80` and `|Δy| < 60`, resetting the tap counter
and leaving any pending timers alone), then tap detection (duration < 300
and `|Δx| < 20` and `|Δy| < 20`, clearing both timers, incrementing the
counter and either arming a 300 ms timer or emitting `TripleTap` at 3). -/
def handleInputEnd (s : GestureState) (e : UpEvent) : GestureState × List GAction :=
  if e.dur < 500 ∧ 80 < e.dx.natAbs ∧ e.dy.natAbs < 60 then
    (⟨0, s.singleTimer, s.doubleTimer⟩,
      [if e.dx < 0 then GAction.swipeLeft else GAction.swipeRight])
  else if e.dur < 300 ∧ e.dx.natAbs < 20 ∧ e.dy.natAbs < 20 then
    let n := s.tapCount + 1
    if n = 1 then (⟨1, some (e.t + 300), none⟩, [])
    else if n = 2 then (⟨2, none, some (e.t + 300)⟩, [])
    else if n = 3 then (⟨0, none, none⟩, [GAction.tripleTap])
    else (⟨n, none, none⟩, [])
  else (s, [])

/-- One event step: expired timers fire first, then the up-event itself. -/
def gestureStep (s : GestureState) (e : UpEvent) : GestureState × List GAction :=
  let p := fireTimers s e.t
  let q := handleInputEnd p.1 e
  (q.1, p.2 ++ q.2)

/-- Run a time-ordered list of up-events. -/
def runEvents (s : GestureState) : List UpEvent → GestureState × List GAction
  | [] => (s, [])
  | e :: es =>
      let p := gestureStep s e
      let q := runEvents p.1 es
      (q.1, p.2 ++ q.2)

/-- Let every still-pending timer expire after the last event. -/
def flushTimers (s : GestureState) : List GAction :=
  (match s.singleTimer with | some _ => [GAction.singleTap] | none => []) ++
  (match s.doubleTimer with | some _ => [GAction.doubleTap] | none => [])

/-- Actions emitted for a whole gesture sequence, timers allowed to expire. -/
def gestureRun (es : List UpEvent) : List GAction :=
  let p := runEvents initGesture es
  p.2 ++ flushTimers p.1

/-- Tap eligibility of a single up-event. -/
def isTapEvent (e : UpEvent) : Prop :=
  e.dur < 300 ∧ e.dx.natAbs < 20 ∧ e.dy.natAbs < 20

-- ------------------------------------------------------------------
-- Mode cycling (App.tsx handleSwipe / handleModeChange)
-- ------------------------------------------------------------------

/-- Embeds `Object.values(AppMode)` in declaration order. -/
def modesList : List AppMode := [AppMode.NAVIGATION, AppMode.READING, AppMode.OBJECT]

/-- Embeds `modes.indexOf(mode)`. -/
def modeIndex (m : AppMode) : Nat :=
  match m with
  | AppMode.NAVIGATION => 0
  | AppMode.READING => 1
  | AppMode.OBJECT => 2

/-- Embeds `handleModeChange`: it announces only when the mode differs, but the
active mode always ends up equal to the requested one. -/
def handleModeChange (cur new : AppMode) : AppMode :=
  if cur ≠ new then new else cur

inductive SwipeDir where
  | left | right
deriving DecidableEq, Repr

/-- Embeds `handleSwipe` (App.tsx lines 134-145): left picks
`(currentIndex + 1) % modes.length`, right picks
`(currentIndex - 1 + modes.length) % modes.length`. -/
def handleSwipe (dir : SwipeDir) (m : AppMode) : AppMode :=
  let i : Int := modeIndex m
  let len : Int := modesList.length
  let nextIndex : Int :=
    match dir with
    | SwipeDir.left => (i + 1) % len
    | SwipeDir.right => (i - 1 + len) % len
  handleModeChange m (modesList.getD nextIndex.toNat AppMode.NAVIGATION)

-- ------------------------------------------------------------------
-- Reconnection backoff (LiveAssistant handleDisconnect, MAX_RETRIES)
-- ------------------------------------------------------------------

def MAX_RETRIES : Nat := 5

/-- What one invocation of `handleDisconnect` observably does. -/
structure DisconnectResult where
  status : Option ConnStatus
  /-- delay in ms passed to `setTimeout` for the reconnect, if scheduled -/
  scheduledDelayMs : Option Nat
  newRetryCount : Nat
  /-- whether `onError` was invoked (App.tsx then sets `appState = 'error'`) -/
  errorSurfaced : Bool
deriving DecidableEq, Repr

/-- Embeds `handleDisconnect` (LiveAssistant lines 770-806). `preState` is
`appStateRef.current` read synchronously at the call; `postState` is the
value re-read after `cleanup()` resolves. If the guards pass and
`retryCount < MAX_RETRIES`, a reconnect is scheduled after
`Math.pow(2, retryCount) * 1000` ms and the counter is incremented;
otherwise status becomes `error` and `onError` fires. -/
def handleDisconnect (preState postState : AppState)
    (cleanupInProgress mounted : Bool) (retryCount : Nat) : DisconnectResult :=
  if ¬ isActiveState preState ∨ cleanupInProgress ∨ ¬ mounted then
    ⟨none, none, retryCount, false⟩
  else if ¬ mounted then ⟨none, none, retryCount, false⟩
  else if postState = AppState.idle ∨ postState = AppState.stopping then
    ⟨none, none, retryCount, false⟩
  else if retryCount < MAX_RETRIES then
    ⟨some ConnStatus.reconnecting, some (2 ^ retryCount * 1000), retryCount + 1, false⟩
  else
    ⟨some ConnStatus.error, none, retryCount, true⟩

/-- Embeds `onError` as wired in App.tsx: `setError(err); setAppState('error')`. -/
def appOnError (_s : AppState) : AppState := AppState.error

/-- Whether a connect attempt got past its guards (acquired devices and
opened a transport) or aborted first. -/
inductive ConnectOutcome where
  | aborted | proceeded
deriving DecidableEq, Repr

/-- The guard at the head of `connect` (LiveAssistant lines 567-585): after
waiting out any cleanup it re-reads `appStateRef.current` and returns —
before `getUserMedia` and before `ai.live.connect` — unless the state is
still active and the component is mounted. -/
def connectGuard (s : AppState) (mounted : Bool) : ConnectOutcome :=
  if isActiveState s ∧ mounted then ConnectOutcome.proceeded else ConnectOutcome.aborted

/-- The retry-timeout callback (LiveAssistant lines 797-799):
`if (appStateRef.current !== 'idle' && isMountedRef.current) connect(true)`,
composed with `connect`'s own guard. -/
def retryFire (s : AppState) (mounted : Bool) : ConnectOutcome :=
  if s ≠ AppState.idle ∧ mounted then connectGuard s mounted else ConnectOutcome.aborted

/-- The timer bookkeeping of `cleanup` (LiveAssistant lines 491-492): any
pending retry timeout and countdown interval are cancelled. -/
def cleanupTimers (_retryTimer _countdownTimer : Option Nat) : Option Nat × Option Nat :=
  (none, none)

/-- The catch-handler of `connect` (LiveAssistant lines 758-767): when
mounted, `onError` is invoked (surfacing the failure and moving the app
state to `error`), and `handleDisconnect` is invoked when the
synchronously read state is still active. `stateAtCatch` is the value of
`appStateRef.current` inside the catch block — React has not re-rendered
within this synchronous code, so it is still the pre-failure value. -/
def connectCatch (stateAtCatch : AppState) (mounted : Bool) :
    Bool × Bool :=
  if mounted then (true, isActiveState stateAtCatch) else (false, false)

-- ------------------------------------------------------------------
-- Audio pipeline (nextStartTimeRef, audioSourcesRef, stopAudioOutput)
-- ------------------------------------------------------------------

/-- An `AudioBufferSourceNode` handle: its scheduled start, its buffer
duration and whether `stop()` has been called on it. -/
structure SourceNode where
  start : ℚ
  dur : ℚ
  stopped : Bool
deriving DecidableEq, Repr

/-- Embeds `source.stop()`: it throws (`InvalidStateError`) if already stopped. -/
def stopNode (s : SourceNode) : Except Unit SourceNode :=
  if s.stopped then Except.error () else Except.ok { s with stopped := true }

/-- The `try { source.stop(); source.disconnect(); } catch (e) {}` body of
`stopAudioOutput`: total, the throw on an already-stopped handle is
swallowed. -/
def tryStopNode (s : SourceNode) : SourceNode :=
  match stopNode s with
  | Except.ok s2 => s2
  | Except.error _ => s

/-- The audio-output half of the pipeline: the `nextStartTimeRef` cursor
and the owned set `audioSourcesRef` of in-flight playback handles. -/
structure AudioOut where
  nextStartTime : ℚ
  sources : List SourceNode
deriving DecidableEq, Repr

def initAudio : AudioOut := ⟨0, []⟩

/-- Embeds `stopAudioOutput` (LiveAssistant lines 469-478): every member of
`audioSourcesRef` is stopped and released (errors swallowed), the set is
cleared and the cursor reset to 0. Returns the new state together with
the released handles. -/
def stopAudioOutput (a : AudioOut) : AudioOut × List SourceNode :=
  (⟨0, []⟩, a.sources.map tryStopNode)

/-- The audio-scheduling body of `onmessage` (LiveAssistant lines 688-700):
`nextStartTime := max(nextStartTime, currentTime)`, schedule the chunk to
start there, advance the cursor by the chunk's duration. `now` is
`ctx.currentTime`, `d` the decoded buffer's duration. -/
def scheduleChunk (a : AudioOut) (now d : ℚ) : AudioOut :=
  let start := max a.nextStartTime now
  ⟨start + d, a.sources ++ [⟨start, d, false⟩]⟩

/-- Start times produced by scheduling a burst of chunks in arrival order;
each pair is (`ctx.currentTime` at processing, chunk duration). -/
def scheduleBurst (a : AudioOut) : List (ℚ × ℚ) → AudioOut
  | [] => a
  | (now, d) :: rest => scheduleBurst (scheduleChunk a now d) rest

-- ------------------------------------------------------------------
-- Session model: onmessage, tool calls, pause effect, capture guard
-- ------------------------------------------------------------------

/-- Remote-invocable operations declared in constants.ts. -/
inductive ToolCall where
  | changeMode (m : AppMode)
  | toggleCamera (pause : Bool)
deriving DecidableEq, Repr

/-- An inbound transport message as consumed by `onmessage`: an optional
decoded-audio duration, tool calls, and the `interrupted` flag. -/
structure ServerMessage where
  audioDur : Option ℚ
  toolCalls : List ToolCall
  interrupted : Bool
deriving DecidableEq, Repr

/-- The live-session state the message handler touches. -/
structure SessionModel where
  appState : AppState
  mode : AppMode
  audio : AudioOut
  transportOpen : Bool
deriving DecidableEq, Repr

/-- Embeds `handleTogglePause` (App.tsx lines 77-88). -/
def handleTogglePause (s : AppState) : AppState :=
  if s = AppState.running then AppState.paused
  else if s = AppState.paused then AppState.running
  else s

/-- One tool call as dispatched by `onmessage` (LiveAssistant lines
704-740); `entryState` is the `currentAppState` read once at message entry
(`isCurrentlyPaused` is computed from it). -/
def applyToolCall (entryState : AppState) (st : SessionModel) : ToolCall → SessionModel
  | ToolCall.changeMode m => { st with mode := handleModeChange st.mode m }
  | ToolCall.toggleCamera p =>
      let isCurrentlyPaused := entryState = AppState.paused
      if p then
        if ¬ isCurrentlyPaused then { st with appState := handleTogglePause st.appState }
        else st
      else
        if isCurrentlyPaused then { st with appState := handleTogglePause st.appState }
        else st

/-- Embeds `onmessage` (LiveAssistant lines 680-744): it bails out when unmounted or
when the state is no longer active; schedule inbound audio only when not
paused; dispatch tool calls; finally, an `interrupted` flag stops all
audio output. `now` is `ctx.currentTime` when the audio part runs. -/
def processMessage (mounted : Bool) (now : ℚ) (st : SessionModel)
    (msg : ServerMessage) : SessionModel :=
  if ¬ mounted then st
  else if ¬ isActiveState st.appState then st
  else
    let st1 :=
      match msg.audioDur with
      | some d =>
          if st.appState ≠ AppState.paused then
            { st with audio := scheduleChunk st.audio now d }
          else st
      | none => st
    let st2 := msg.toolCalls.foldl (applyToolCall st.appState) st1
    if msg.interrupted then { st2 with audio := (stopAudioOutput st2.audio).1 }
    else st2

/-- The `onaudioprocess` guard (LiveAssistant lines 661-673): a captured
microphone chunk is encoded and handed to the transport iff the component
is mounted and the state is `running`, `starting` or `paused`. -/
def micSends (mounted : Bool) (s : AppState) : Bool :=
  mounted && isActiveState s

/-- The pause effect (LiveAssistant lines 878-882): entering `paused`
stops all audio output immediately; nothing else is touched. -/
def pauseEffect (st : SessionModel) : SessionModel :=
  if st.appState = AppState.paused then
    { st with audio := (stopAudioOutput st.audio).1 }
  else st

/-- The mount effect's branch (LiveAssistant lines 885-895): an active
state keeps/opens the connection, an inactive one tears it down. -/
inductive MountAction where
  | connectTransport | teardown
deriving DecidableEq, Repr

def mountEffect (s : AppState) : MountAction :=
  if isActiveState s then MountAction.connectTransport else MountAction.teardown

-- ------------------------------------------------------------------
-- Adaptive frame sampler (startFrameStreaming tick body)
-- ------------------------------------------------------------------

def TICK_RATE : Nat := 500
def HEARTBEAT_INTERVAL : Nat := 2000

/-- Embeds `lastFrameDataRef` and `lastFrameTimeRef`. -/
structure FrameState where
  lastFrameData : Option (List Nat)
  lastFrameTime : Nat
deriving DecidableEq, Repr

def initFrame : FrameState := ⟨none, 0⟩

/-- Sum of absolute per-channel differences over RGBA data (stride 4,
alpha skipped), as in the tick's diff loop. -/
def totalDiff : List Nat → List Nat → Nat
  | r :: g :: b :: _ :: rest, r2 :: g2 :: b2 :: _ :: rest2 =>
      (max r r2 - min r r2) + (max g g2 - min g g2) + (max b b2 - min b b2)
        + totalDiff rest rest2
  | _, _ => 0

/-- Embeds the motion test `(totalDiff / (64 * 64)) > 15`. -/
def significantChange (cur prev : List Nat) : Bool :=
  decide ((totalDiff cur prev : ℚ) / (64 * 64) > 15)

/-- One sampling tick (LiveAssistant lines 819-874): nothing happens
unless the state is `running`; otherwise the motion test runs against the
baseline (a missing baseline counts as changed), the frame is transmitted
iff the test passes or more than `HEARTBEAT_INTERVAL` ms have elapsed
since the last transmission, and the thumbnail always becomes the new
baseline. Returns the new state and whether this tick transmitted. -/
def frameTick (st : FrameState) (now : Nat) (cur : List Nat)
    (s : AppState) : FrameState × Bool :=
  if s = AppState.paused ∨ s ≠ AppState.running then (st, false)
  else
    let hasSignificantChange :=
      match st.lastFrameData with
      | some prev => significantChange cur prev
      | none => true
    let transmit := hasSignificantChange || decide (now - st.lastFrameTime > HEARTBEAT_INTERVAL)
    (⟨some cur, if transmit then now else st.lastFrameTime⟩, transmit)

/-- Run a sequence of ticks (time, thumbnail), collecting transmit times. -/
def runTicks (st : FrameState) (s : AppState) :
    List (Nat × List Nat) → FrameState × List Nat
  | [] => (st, [])
  | (now, cur) :: rest =>
      let p := frameTick st now cur s
      let q := runTicks p.1 s rest
      (q.1, (if p.2 then [now] else []) ++ q.2)

-- ------------------------------------------------------------------
-- Theorems
-- ------------------------------------------------------------------

instance (e : UpEvent) : Decidable (isTapEvent e) := by
  unfold isTapEvent; infer_instance

lemma not_swipe_of_tap {e : UpEvent} (h : isTapEvent e) :
    ¬ (e.dur < 500 ∧ 80 < e.dx.natAbs ∧ e.dy.natAbs < 60) := by
  rintro ⟨-, hx, -⟩
  exact absurd h.2.1 (by omega)

lemma handleInputEnd_tap (s : GestureState) (e : UpEvent) (h : isTapEvent e) :
    handleInputEnd s e =
      if s.tapCount + 1 = 1 then (⟨1, some (e.t + 300), none⟩, [])
      else if s.tapCount + 1 = 2 then (⟨2, none, some (e.t + 300)⟩, [])
      else if s.tapCount + 1 = 3 then (⟨0, none, none⟩, [GAction.tripleTap])
      else (⟨s.tapCount + 1, none, none⟩, []) := by
  obtain ⟨hd, hx2, hy2⟩ := h
  unfold handleInputEnd
  rw [if_neg (not_swipe_of_tap ⟨hd, hx2, hy2⟩), if_pos ⟨hd, hx2, hy2⟩]

/-- C1: N rapid taps (each a sub-300ms, sub-20px pointer pair) arriving
with gaps below the 300 ms disambiguation window emit exactly one action:
`SingleTap` for N = 1 (when the timer expires), `DoubleTap` for N = 2
(when the restarted timer expires), `TripleTap` for N = 3 (immediately,
resetting the counter) — never more than one emission per sequence. -/
theorem tap_disambiguation_exactly_one (e1 e2 e3 : UpEvent)
    (h1 : isTapEvent e1) (h2 : isTapEvent e2) (h3 : isTapEvent e3)
    (h12 : e2.t < e1.t + 300) (h23 : e3.t < e2.t + 300) :
    gestureRun [e1] = [GAction.singleTap] ∧
    gestureRun [e1, e2] = [GAction.doubleTap] ∧
    gestureRun [e1, e2, e3] = [GAction.tripleTap] := by
  have hs1 : gestureStep initGesture e1 = (⟨1, some (e1.t + 300), none⟩, []) := by
    simp [gestureStep, fireTimers, fireSingle, fireDouble, initGesture,
      handleInputEnd_tap _ _ h1]
  have hn12 : ¬ (e1.t + 300 ≤ e2.t) := by omega
  have hs2 : gestureStep ⟨1, some (e1.t + 300), none⟩ e2
      = (⟨2, none, some (e2.t + 300)⟩, []) := by
    simp [gestureStep, fireTimers, fireSingle, fireDouble, hn12,
      handleInputEnd_tap _ _ h2]
  have hn23 : ¬ (e2.t + 300 ≤ e3.t) := by omega
  have hs3 : gestureStep ⟨2, none, some (e2.t + 300)⟩ e3
      = (⟨0, none, none⟩, [GAction.tripleTap]) := by
    simp [gestureStep, fireTimers, fireSingle, fireDouble, hn23,
      handleInputEnd_tap _ _ h3]
  refine ⟨?_, ?_, ?_⟩ <;>
    simp [gestureRun, runEvents, hs1, hs2, hs3, flushTimers]

theorem tap_disambiguation_witness :
    gestureRun [⟨100, 0, 0, 50⟩] = [GAction.singleTap] ∧
    gestureRun [⟨100, 0, 0, 50⟩, ⟨300, 0, 0, 50⟩] = [GAction.doubleTap] ∧
    gestureRun [⟨100, 0, 0, 50⟩, ⟨300, 0, 0, 50⟩, ⟨500, 0, 0, 50⟩]
      = [GAction.tripleTap] :=
  tap_disambiguation_exactly_one ⟨100, 0, 0, 50⟩ ⟨300, 0, 0, 50⟩ ⟨500, 0, 0, 50⟩
    (by decide) (by decide) (by decide) (by decide) (by decide)

/-- C2: a pointer pair with duration < 500 ms, `|Δx| > 80` and
`|Δy| < 60` emits `SwipeLeft` when `Δx < 0` and `SwipeRight` when
`Δx > 0` immediately, resets the pending tap counter to 0 from any
accumulated value, and is never tap-eligible — swipe detection takes
precedence over tap detection. -/
theorem swipe_precedence (s : GestureState) (e : UpEvent)
    (hdur : e.dur < 500) (hx : 80 < e.dx.natAbs) (hy : e.dy.natAbs < 60) :
    (handleInputEnd s e).2
      = [if e.dx < 0 then GAction.swipeLeft else GAction.swipeRight] ∧
    (e.dx < 0 → (handleInputEnd s e).2 = [GAction.swipeLeft]) ∧
    (0 < e.dx → (handleInputEnd s e).2 = [GAction.swipeRight]) ∧
    (handleInputEnd s e).1.tapCount = 0 ∧
    ¬ isTapEvent e := by
  have hcond : e.dur < 500 ∧ 80 < e.dx.natAbs ∧ e.dy.natAbs < 60 := ⟨hdur, hx, hy⟩
  unfold handleInputEnd
  rw [if_pos hcond]
  refine ⟨rfl, ?_, ?_, rfl, ?_⟩
  · intro hneg; rw [if_pos hneg]
  · intro hpos; rw [if_neg (by omega)]
  · rintro ⟨-, hx2, -⟩; omega

theorem swipe_precedence_witness :
    (handleInputEnd ⟨2, some 600, none⟩ ⟨400, -100, 10, 200⟩).2
      = [if (-100 : Int) < 0 then GAction.swipeLeft else GAction.swipeRight] ∧
    ((-100 : Int) < 0 →
      (handleInputEnd ⟨2, some 600, none⟩ ⟨400, -100, 10, 200⟩).2
        = [GAction.swipeLeft]) ∧
    ((0 : Int) < -100 →
      (handleInputEnd ⟨2, some 600, none⟩ ⟨400, -100, 10, 200⟩).2
        = [GAction.swipeRight]) ∧
    (handleInputEnd ⟨2, some 600, none⟩ ⟨400, -100, 10, 200⟩).1.tapCount = 0 ∧
    ¬ isTapEvent ⟨400, -100, 10, 200⟩ :=
  swipe_precedence ⟨2, some 600, none⟩ ⟨400, -100, 10, 200⟩
    (by decide) (by decide) (by decide)

/-- C10: swipes cycle the active mode through the fixed ordered list
(NAVIGATION, READING, OBJECT) modulo its length — `SwipeLeft` selects the
next and `SwipeRight` the previous mode, a left swipe followed by a right
swipe (and vice versa) leaves the mode unchanged, and three consecutive
same-direction swipes return to the original mode. -/
theorem swipe_mode_cycle (m : AppMode) :
    handleSwipe SwipeDir.right (handleSwipe SwipeDir.left m) = m ∧
    handleSwipe SwipeDir.left (handleSwipe SwipeDir.right m) = m ∧
    handleSwipe SwipeDir.left (handleSwipe SwipeDir.left
      (handleSwipe SwipeDir.left m)) = m ∧
    handleSwipe SwipeDir.right (handleSwipe SwipeDir.right
      (handleSwipe SwipeDir.right m)) = m ∧
    handleSwipe SwipeDir.left m
      = modesList.getD ((modeIndex m + 1) % modesList.length) AppMode.NAVIGATION ∧
    handleSwipe SwipeDir.right m
      = modesList.getD ((modeIndex m + modesList.length - 1) % modesList.length)
          AppMode.NAVIGATION := by
  cases m <;> decide

/-- C3: on a transport close/error while the session is logically active,
a retry counter k below `MAX_RETRIES = 5` schedules the next attempt
after `2^k` seconds (1, 2, 4, 8, 16 — monotonically increasing) and
increments the counter; at k = 5 no attempt is scheduled, the status
becomes `error` and `onError` moves the session state to `Error`, and a
disconnect in the `Error` state does nothing — failure is terminal. -/
theorem backoff_schedule_terminal (k : Nat) (pre post : AppState)
    (hpre : isActiveState pre = true)
    (hpost : post ≠ AppState.idle ∧ post ≠ AppState.stopping) :
    (k < MAX_RETRIES →
      handleDisconnect pre post false true k
        = ⟨some ConnStatus.reconnecting, some (2 ^ k * 1000), k + 1, false⟩) ∧
    ((List.range MAX_RETRIES).map (fun j => 2 ^ j * 1000)
        = [1000, 2000, 4000, 8000, 16000]) ∧
    (∀ j, j + 1 < MAX_RETRIES → 2 ^ j * 1000 < 2 ^ (j + 1) * 1000) ∧
    (k = MAX_RETRIES →
      handleDisconnect pre post false true k
        = ⟨some ConnStatus.error, none, k, true⟩) ∧
    appOnError pre = AppState.error ∧
    (∀ post2 cip m j, handleDisconnect AppState.error post2 cip m j
        = ⟨none, none, j, false⟩) := by
  refine ⟨?_, by decide, ?_, ?_, rfl, ?_⟩
  · intro hk
    unfold handleDisconnect
    rw [if_neg (by simp [hpre]), if_neg (by simp), if_neg (by tauto), if_pos hk]
  · intro j hj
    have h2 : (2 : Nat) ^ j < 2 ^ (j + 1) := by
      exact Nat.pow_lt_pow_right (by omega) (by omega)
    omega
  · intro hk
    unfold handleDisconnect
    rw [if_neg (by simp [hpre]), if_neg (by simp), if_neg (by tauto),
      if_neg (by omega)]
  · intro post2 cip m j
    unfold handleDisconnect
    rw [if_pos (by simp [isActiveState])]

theorem backoff_schedule_witness :
    (3 < MAX_RETRIES →
      handleDisconnect AppState.running AppState.running false true 3
        = ⟨some ConnStatus.reconnecting, some (2 ^ 3 * 1000), 3 + 1, false⟩) ∧
    ((List.range MAX_RETRIES).map (fun j => 2 ^ j * 1000)
        = [1000, 2000, 4000, 8000, 16000]) ∧
    (∀ j, j + 1 < MAX_RETRIES → 2 ^ j * 1000 < 2 ^ (j + 1) * 1000) ∧
    (3 = MAX_RETRIES →
      handleDisconnect AppState.running AppState.running false true 3
        = ⟨some ConnStatus.error, none, 3, true⟩) ∧
    appOnError AppState.running = AppState.error ∧
    (∀ post2 cip m j, handleDisconnect AppState.error post2 cip m j
        = ⟨none, none, j, false⟩) :=
  backoff_schedule_terminal 3 AppState.running AppState.running
    (by decide) ⟨by decide, by decide⟩

/-- C4: three decoded audio chunks of durations d1, d2, d3 arriving in a
burst (each while the context clock has not passed the cursor) are
scheduled at `max(cursor, now)` with the cursor advancing by each chunk's
duration, giving start times `t0, t0 + d1, t0 + d1 + d2` with
`t0 = max(currentTime, 0)` — gap-free, non-overlapping, order-preserving,
with no ordering metadata. -/
theorem burst_playback_schedule (now1 now2 now3 d1 d2 d3 : ℚ)
    (hd1 : 0 ≤ d1) (hd2 : 0 ≤ d2) (_hd3 : 0 ≤ d3)
    (hb2 : now2 ≤ max now1 0 + d1) (hb3 : now3 ≤ max now1 0 + d1 + d2) :
    (scheduleBurst initAudio [(now1, d1), (now2, d2), (now3, d3)]).sources.map
        SourceNode.start
      = [max now1 0, max now1 0 + d1, max now1 0 + d1 + d2] ∧
    (scheduleBurst initAudio [(now1, d1), (now2, d2), (now3, d3)]).sources.map
        SourceNode.dur
      = [d1, d2, d3] ∧
    (scheduleBurst initAudio [(now1, d1), (now2, d2), (now3, d3)]).nextStartTime
      = max now1 0 + d1 + d2 + d3 ∧
    max now1 0 ≤ max now1 0 + d1 ∧ max now1 0 + d1 ≤ max now1 0 + d1 + d2 := by
  have hcomm : max (0 : ℚ) now1 = max now1 0 := max_comm 0 now1
  have e1 : scheduleChunk initAudio now1 d1
      = ⟨max now1 0 + d1, [⟨max now1 0, d1, false⟩]⟩ := by
    simp [scheduleChunk, initAudio, hcomm]
  have e2 : scheduleChunk ⟨max now1 0 + d1, [⟨max now1 0, d1, false⟩]⟩ now2 d2
      = ⟨max now1 0 + d1 + d2,
          [⟨max now1 0, d1, false⟩, ⟨max now1 0 + d1, d2, false⟩]⟩ := by
    simp [scheduleChunk, max_eq_left hb2]
  have e3 : scheduleChunk
      ⟨max now1 0 + d1 + d2,
        [⟨max now1 0, d1, false⟩, ⟨max now1 0 + d1, d2, false⟩]⟩ now3 d3
      = ⟨max now1 0 + d1 + d2 + d3,
          [⟨max now1 0, d1, false⟩, ⟨max now1 0 + d1, d2, false⟩,
            ⟨max now1 0 + d1 + d2, d3, false⟩]⟩ := by
    simp [scheduleChunk, max_eq_left hb3]
  refine ⟨?_, ?_, ?_, by linarith, by linarith⟩ <;>
    simp [scheduleBurst, e1, e2, e3]

theorem burst_playback_witness :
    (scheduleBurst initAudio [((5 : ℚ), 2), (6, 3), (7, 4)]).sources.map
        SourceNode.start
      = [max (5 : ℚ) 0, max (5 : ℚ) 0 + 2, max (5 : ℚ) 0 + 2 + 3] ∧
    (scheduleBurst initAudio [((5 : ℚ), 2), (6, 3), (7, 4)]).sources.map
        SourceNode.dur
      = [2, 3, 4] ∧
    (scheduleBurst initAudio [((5 : ℚ), 2), (6, 3), (7, 4)]).nextStartTime
      = max (5 : ℚ) 0 + 2 + 3 + 4 ∧
    max (5 : ℚ) 0 ≤ max (5 : ℚ) 0 + 2 ∧
    max (5 : ℚ) 0 + 2 ≤ max (5 : ℚ) 0 + 2 + 3 :=
  burst_playback_schedule 5 6 7 2 3 4 (by norm_num) (by norm_num) (by norm_num)
    (by rw [max_eq_left (by norm_num)]; norm_num)
    (by rw [max_eq_left (by norm_num)]; norm_num)

/-- C5: whenever the session state is `Paused`, inbound decoded audio is
received but never scheduled, the pause effect stops playing audio
immediately, the frame sampler tick transmits nothing, while microphone
capture keeps sending and the mount effect keeps the transport connected —
and a remote `toggleCamera` resume tool call moves the paused session back
to `Running` without touching the transport. -/
theorem paused_session_invariant (st : SessionModel) (d now : ℚ)
    (h : st.appState = AppState.paused) :
    micSends true AppState.paused = true ∧
    mountEffect AppState.paused = MountAction.connectTransport ∧
    (pauseEffect st).audio = initAudio ∧
    (pauseEffect st).transportOpen = st.transportOpen ∧
    (processMessage true now st ⟨some d, [], false⟩).audio = st.audio ∧
    (∀ fs nowT cur, frameTick fs nowT cur AppState.paused = (fs, false)) ∧
    (processMessage true now st
        ⟨none, [ToolCall.toggleCamera false], false⟩).appState
      = AppState.running ∧
    (processMessage true now st
        ⟨none, [ToolCall.toggleCamera false], false⟩).transportOpen
      = st.transportOpen := by
  refine ⟨rfl, rfl, ?_, ?_, ?_, ?_, ?_, ?_⟩
  · simp [pauseEffect, h, stopAudioOutput, initAudio]
  · simp [pauseEffect, h, stopAudioOutput]
  · simp [processMessage, h, isActiveState]
  · intro fs nowT cur; simp [frameTick]
  · simp [processMessage, h, isActiveState, applyToolCall, handleTogglePause]
  · simp [processMessage, h, isActiveState, applyToolCall, handleTogglePause]

theorem paused_session_witness :
    micSends true AppState.paused = true ∧
    mountEffect AppState.paused = MountAction.connectTransport ∧
    (pauseEffect ⟨AppState.paused, AppMode.READING, ⟨7, [⟨0, 7, false⟩]⟩,
        true⟩).audio = initAudio ∧
    (pauseEffect ⟨AppState.paused, AppMode.READING, ⟨7, [⟨0, 7, false⟩]⟩,
        true⟩).transportOpen
      = (SessionModel.mk AppState.paused AppMode.READING ⟨7, [⟨0, 7, false⟩]⟩
          true).transportOpen ∧
    (processMessage true 2
        ⟨AppState.paused, AppMode.READING, ⟨7, [⟨0, 7, false⟩]⟩, true⟩
        ⟨some 1, [], false⟩).audio
      = (SessionModel.mk AppState.paused AppMode.READING ⟨7, [⟨0, 7, false⟩]⟩
          true).audio ∧
    (∀ fs nowT cur, frameTick fs nowT cur AppState.paused = (fs, false)) ∧
    (processMessage true 2
        ⟨AppState.paused, AppMode.READING, ⟨7, [⟨0, 7, false⟩]⟩, true⟩
        ⟨none, [ToolCall.toggleCamera false], false⟩).appState
      = AppState.running ∧
    (processMessage true 2
        ⟨AppState.paused, AppMode.READING, ⟨7, [⟨0, 7, false⟩]⟩, true⟩
        ⟨none, [ToolCall.toggleCamera false], false⟩).transportOpen
      = (SessionModel.mk AppState.paused AppMode.READING ⟨7, [⟨0, 7, false⟩]⟩
          true).transportOpen :=
  paused_session_invariant
    ⟨AppState.paused, AppMode.READING, ⟨7, [⟨0, 7, false⟩]⟩, true⟩ 1 2 rfl

lemma totalDiff_self : ∀ l : List Nat, totalDiff l l = 0
  | [] => rfl
  | [_] => rfl
  | [_, _] => rfl
  | [_, _, _] => rfl
  | _ :: _ :: _ :: _ :: rest => by
      simp [totalDiff, totalDiff_self rest]

lemma significantChange_self (l : List Nat) : significantChange l l = false := by
  simp only [significantChange, totalDiff_self]
  norm_num

/-- A 64 by 64 RGBA thumbnail of a perfectly static scene. -/
def zeroThumb : List Nat := List.replicate (64 * 64 * 4) 0

/-- C6 counterexample: with a zero motion score (identical thumbnails), a
run of 500 ms ticks starting from an empty baseline transmits only at
t = 500 and t = 3000 — so the `HeartbeatInterval`-length (2000 ms) window
[550, 2550] contains no transmitted frame, contrary to the claim that a
frame is transmitted within any `HeartbeatInterval`-length window. -/
theorem heartbeat_window_cex :
    (runTicks initFrame AppState.running
        [(500, zeroThumb), (1000, zeroThumb), (1500, zeroThumb),
          (2000, zeroThumb), (2500, zeroThumb), (3000, zeroThumb)]).2
      = [500, 3000] ∧
    List.filter (fun t => 550 ≤ t && t ≤ 2550)
        (runTicks initFrame AppState.running
          [(500, zeroThumb), (1000, zeroThumb), (1500, zeroThumb),
            (2000, zeroThumb), (2500, zeroThumb), (3000, zeroThumb)]).2
      = [] ∧
    2550 - 550 = HEARTBEAT_INTERVAL := by
  have hrun : (runTicks initFrame AppState.running
      [(500, zeroThumb), (1000, zeroThumb), (1500, zeroThumb),
        (2000, zeroThumb), (2500, zeroThumb), (3000, zeroThumb)]).2
      = [500, 3000] := by
    simp [runTicks, frameTick, initFrame, significantChange_self,
      HEARTBEAT_INTERVAL]
  refine ⟨hrun, ?_, by decide⟩
  rw [hrun]
  decide

/-- C6 amended: while `Running` the sampler transmits at most one frame
per tick; a tick with a baseline transmits exactly when the motion test
passes or more than `HEARTBEAT_INTERVAL` ms elapsed since the last
transmission; every running tick stores the new thumbnail as baseline;
and under a zero motion score consecutive transmissions are exactly
`HEARTBEAT_INTERVAL + TICK_RATE` (2500 ms) apart: a frame is guaranteed
within any window of that length, not within `HeartbeatInterval`. -/
theorem frame_sampler_amended (prev cur f : List Nat) (lt now T : Nat)
    (fs : FrameState) (s : AppState) :
    (frameTick ⟨some prev, lt⟩ now cur AppState.running).2
      = (significantChange cur prev || decide (now - lt > HEARTBEAT_INTERVAL)) ∧
    ((if (frameTick fs now cur s).2 then 1 else 0) ≤ 1) ∧
    (frameTick ⟨some prev, lt⟩ now cur AppState.running).1.lastFrameData
      = some cur ∧
    (frameTick ⟨none, lt⟩ now cur AppState.running).1.lastFrameData = some cur ∧
    runTicks ⟨some f, T⟩ AppState.running
        [(T + 500, f), (T + 1000, f), (T + 1500, f), (T + 2000, f),
          (T + 2500, f)]
      = (⟨some f, T + 2500⟩, [T + 2500]) ∧
    T + 2500 = T + HEARTBEAT_INTERVAL + TICK_RATE := by
  refine ⟨by simp [frameTick], ?_, by simp [frameTick], by simp [frameTick],
    ?_, by simp [HEARTBEAT_INTERVAL, TICK_RATE]⟩
  · split <;> omega
  · have hsub : ∀ k : Nat, T + k - T = k := fun k => by omega
    simp [runTicks, frameTick, significantChange_self, hsub,
      HEARTBEAT_INTERVAL]

/-- C7 counterexample: a device-acquisition failure in `connect`'s catch
block, with the synchronously read app state still `starting` (React has
not re-rendered inside the synchronous catch), invokes `handleDisconnect`,
which schedules a reconnection attempt after 1000 ms with status
`reconnecting` — contrary to the claim that no automatic reconnection
attempt is ever scheduled. -/
theorem device_failure_retry_scheduled_cex :
    connectCatch AppState.starting true = (true, true) ∧
    (handleDisconnect AppState.starting AppState.error false true 0).scheduledDelayMs
      = some 1000 ∧
    (handleDisconnect AppState.starting AppState.error false true 0).status
      = some ConnStatus.reconnecting := by
  decide

/-- C7 amended: a device acquisition failure during connect is surfaced
immediately via `onError`, which moves the session to `Error`; the shared
disconnect handler is invoked and schedules one reconnection attempt, but
that attempt aborts after re-reading the session state (`Error` is not an
active state) before acquiring devices or opening a transport, and any
pending retry timer is cancelled by teardown — so no reconnection occurs
and the user must explicitly restart. -/
theorem device_failure_amended (preState : AppState) (k : Nat)
    (r c : Option Nat) (hpre : isActiveState preState = true)
    (hk : k < MAX_RETRIES) :
    connectCatch preState true = (true, true) ∧
    appOnError preState = AppState.error ∧
    (handleDisconnect preState AppState.error false true k).scheduledDelayMs
      = some (2 ^ k * 1000) ∧
    retryFire AppState.error true = ConnectOutcome.aborted ∧
    cleanupTimers r c = (none, none) := by
  refine ⟨?_, rfl, ?_, by decide, rfl⟩
  · simp [connectCatch, hpre]
  · unfold handleDisconnect
    rw [if_neg (by simp [hpre]), if_neg (by simp), if_neg (by simp),
      if_pos hk]

theorem device_failure_amended_witness :
    connectCatch AppState.starting true = (true, true) ∧
    appOnError AppState.starting = AppState.error ∧
    (handleDisconnect AppState.starting AppState.error false true 0).scheduledDelayMs
      = some (2 ^ 0 * 1000) ∧
    retryFire AppState.error true = ConnectOutcome.aborted ∧
    cleanupTimers (some 42) (some 7) = (none, none) :=
  device_failure_amended AppState.starting 0 (some 42) (some 7)
    (by decide) (by decide)

/-- C8: if the session is explicitly stopped (state `stopping` or `idle`)
during a backoff countdown, no reconnection fires: teardown cancels the
retry timer, and a retry that does fire aborts — without acquiring
devices or opening a transport — after re-reading the current state. -/
theorem stop_during_backoff_no_reconnect (s : AppState) (r c : Option Nat)
    (h : s = AppState.idle ∨ s = AppState.stopping) :
    cleanupTimers r c = (none, none) ∧
    (∀ m, retryFire s m = ConnectOutcome.aborted) ∧
    (∀ m, connectGuard s m = ConnectOutcome.aborted) := by
  refine ⟨rfl, ?_, ?_⟩ <;> intro m <;> rcases h with h | h <;> subst h <;>
    cases m <;> decide

theorem stop_during_backoff_witness :
    cleanupTimers (some 5) none = (none, none) ∧
    (∀ m, retryFire AppState.stopping m = ConnectOutcome.aborted) ∧
    (∀ m, connectGuard AppState.stopping m = ConnectOutcome.aborted) :=
  stop_during_backoff_no_reconnect AppState.stopping (some 5) none
    (Or.inr rfl)

/-- C9: `stopAudioOutput` forcibly stops and releases every scheduled or
playing handle (the underlying `stop()` throws on an already-stopped
handle but the throw is swallowed, so the operation is total), clears the
set and resets the cursor to zero; calling it again on the result has no
effect; and an inbound `interrupted` message immediately leaves the audio
output in exactly that stopped state. -/
theorem stop_all_audio_safe (a : AudioOut) (st : SessionModel)
    (msg : ServerMessage) (now : ℚ)
    (hact : isActiveState st.appState = true) (hint : msg.interrupted = true) :
    (stopAudioOutput a).1 = initAudio ∧
    (∀ n ∈ (stopAudioOutput a).2, n.stopped = true) ∧
    (∀ n : SourceNode, n.stopped = true → stopNode n = Except.error ()) ∧
    (∀ n : SourceNode, n.stopped = true → tryStopNode n = n) ∧
    stopAudioOutput (stopAudioOutput a).1 = (initAudio, []) ∧
    (processMessage true now st msg).audio = initAudio := by
  refine ⟨rfl, ?_, ?_, ?_, rfl, ?_⟩
  · intro n hn
    simp only [stopAudioOutput, List.mem_map] at hn
    obtain ⟨x, -, hx⟩ := hn
    subst hx
    by_cases hs : x.stopped <;> simp [tryStopNode, stopNode, hs]
  · intro n hn; simp [stopNode, hn]
  · intro n hn; simp [tryStopNode, stopNode, hn]
  · simp only [processMessage, hact, Bool.not_eq_true, if_neg]
    simp [hint, stopAudioOutput, initAudio]

theorem stop_all_audio_witness :
    (stopAudioOutput ⟨9, [⟨0, 2, false⟩, ⟨2, 3, true⟩]⟩).1 = initAudio ∧
    (∀ n ∈ (stopAudioOutput ⟨9, [⟨0, 2, false⟩, ⟨2, 3, true⟩]⟩).2,
      n.stopped = true) ∧
    (∀ n : SourceNode, n.stopped = true → stopNode n = Except.error ()) ∧
    (∀ n : SourceNode, n.stopped = true → tryStopNode n = n) ∧
    stopAudioOutput (stopAudioOutput ⟨9, [⟨0, 2, false⟩, ⟨2, 3, true⟩]⟩).1
      = (initAudio, []) ∧
    (processMessage true 4
        ⟨AppState.running, AppMode.OBJECT, ⟨9, [⟨0, 2, false⟩]⟩, true⟩
        ⟨some 1, [ToolCall.changeMode AppMode.READING], true⟩).audio
      = initAudio :=
  stop_all_audio_safe ⟨9, [⟨0, 2, false⟩, ⟨2, 3, true⟩]⟩
    ⟨AppState.running, AppMode.OBJECT, ⟨9, [⟨0, 2, false⟩]⟩, true⟩
    ⟨some 1, [ToolCall.changeMode AppMode.READING], true⟩ 4 rfl rfl

end SightGuide
